import Mathlib

/-!
Shallow embedding of the shading core in `src/shaders.rs` of the repository
(a software 3D renderer's vertex transform stage and fragment shading
dispatcher with five procedural material shaders).

Modelling choices:
* `f32` values are modelled as exact rationals `ℚ`.
* The transcendental float methods `sin`, `cos`, `sqrt` of Rust's `f32` are
  modelled as an opaque-function record `FloatOps`, exactly like the noise
  provider, which the code itself already treats as a black-box deterministic
  function (spec §1, §6).
* Rust's `as u8` float-to-integer cast saturates (truncate toward zero, then
  clamp into `[0, 255]`, since Rust 1.45); `f32_as_u8` models this.
* The types `Color`, `Vertex`, `Fragment`, `Uniforms` live in repository files
  (`color.rs`, `vertex.rs`, `fragment.rs`, `main.rs`) that are not part of
  `src/`; they are modelled from the spec where so marked.
-/

/-- 2-component float vector (nalgebra_glm `Vec2`). -/
structure Vec2 where
  x : ℚ
  y : ℚ
deriving Repr, DecidableEq

/-- 3-component float vector (nalgebra_glm `Vec3`). -/
structure Vec3 where
  x : ℚ
  y : ℚ
  z : ℚ
deriving Repr, DecidableEq

/-- 4-component float vector (nalgebra_glm `Vec4`). -/
structure Vec4 where
  x : ℚ
  y : ℚ
  z : ℚ
  w : ℚ
deriving Repr, DecidableEq

/-- 3×3 float matrix (nalgebra_glm `Mat3`), row-major fields `mIJ`. -/
structure Mat3 where
  m11 : ℚ
  m12 : ℚ
  m13 : ℚ
  m21 : ℚ
  m22 : ℚ
  m23 : ℚ
  m31 : ℚ
  m32 : ℚ
  m33 : ℚ
deriving Repr, DecidableEq

/-- 4×4 float matrix (nalgebra_glm `Mat4`), row-major fields `mIJ`. -/
structure Mat4 where
  m11 : ℚ
  m12 : ℚ
  m13 : ℚ
  m14 : ℚ
  m21 : ℚ
  m22 : ℚ
  m23 : ℚ
  m24 : ℚ
  m31 : ℚ
  m32 : ℚ
  m33 : ℚ
  m34 : ℚ
  m41 : ℚ
  m42 : ℚ
  m43 : ℚ
  m44 : ℚ
deriving Repr, DecidableEq

/-- Matrix–vector product `Mat4 * Vec4`. -/
def Mat4.mulVec (m : Mat4) (v : Vec4) : Vec4 :=
  ⟨m.m11 * v.x + m.m12 * v.y + m.m13 * v.z + m.m14 * v.w,
   m.m21 * v.x + m.m22 * v.y + m.m23 * v.z + m.m24 * v.w,
   m.m31 * v.x + m.m32 * v.y + m.m33 * v.z + m.m34 * v.w,
   m.m41 * v.x + m.m42 * v.y + m.m43 * v.z + m.m44 * v.w⟩

/-- Matrix product `Mat4 * Mat4`. -/
def Mat4.mulMat (a b : Mat4) : Mat4 :=
  ⟨a.m11 * b.m11 + a.m12 * b.m21 + a.m13 * b.m31 + a.m14 * b.m41,
   a.m11 * b.m12 + a.m12 * b.m22 + a.m13 * b.m32 + a.m14 * b.m42,
   a.m11 * b.m13 + a.m12 * b.m23 + a.m13 * b.m33 + a.m14 * b.m43,
   a.m11 * b.m14 + a.m12 * b.m24 + a.m13 * b.m34 + a.m14 * b.m44,
   a.m21 * b.m11 + a.m22 * b.m21 + a.m23 * b.m31 + a.m24 * b.m41,
   a.m21 * b.m12 + a.m22 * b.m22 + a.m23 * b.m32 + a.m24 * b.m42,
   a.m21 * b.m13 + a.m22 * b.m23 + a.m23 * b.m33 + a.m24 * b.m43,
   a.m21 * b.m14 + a.m22 * b.m24 + a.m23 * b.m34 + a.m24 * b.m44,
   a.m31 * b.m11 + a.m32 * b.m21 + a.m33 * b.m31 + a.m34 * b.m41,
   a.m31 * b.m12 + a.m32 * b.m22 + a.m33 * b.m32 + a.m34 * b.m42,
   a.m31 * b.m13 + a.m32 * b.m23 + a.m33 * b.m33 + a.m34 * b.m43,
   a.m31 * b.m14 + a.m32 * b.m24 + a.m33 * b.m34 + a.m34 * b.m44,
   a.m41 * b.m11 + a.m42 * b.m21 + a.m43 * b.m31 + a.m44 * b.m41,
   a.m41 * b.m12 + a.m42 * b.m22 + a.m43 * b.m32 + a.m44 * b.m42,
   a.m41 * b.m13 + a.m42 * b.m23 + a.m43 * b.m33 + a.m44 * b.m43,
   a.m41 * b.m14 + a.m42 * b.m24 + a.m43 * b.m34 + a.m44 * b.m44⟩

/-- Matrix–vector product `Mat3 * Vec3`. -/
def Mat3.mulVec (m : Mat3) (v : Vec3) : Vec3 :=
  ⟨m.m11 * v.x + m.m12 * v.y + m.m13 * v.z,
   m.m21 * v.x + m.m22 * v.y + m.m23 * v.z,
   m.m31 * v.x + m.m32 * v.y + m.m33 * v.z⟩

/-- Matrix product `Mat3 * Mat3`. -/
def Mat3.mulMat (a b : Mat3) : Mat3 :=
  ⟨a.m11 * b.m11 + a.m12 * b.m21 + a.m13 * b.m31,
   a.m11 * b.m12 + a.m12 * b.m22 + a.m13 * b.m32,
   a.m11 * b.m13 + a.m12 * b.m23 + a.m13 * b.m33,
   a.m21 * b.m11 + a.m22 * b.m21 + a.m23 * b.m31,
   a.m21 * b.m12 + a.m22 * b.m22 + a.m23 * b.m32,
   a.m21 * b.m13 + a.m22 * b.m23 + a.m23 * b.m33,
   a.m31 * b.m11 + a.m32 * b.m21 + a.m33 * b.m31,
   a.m31 * b.m12 + a.m32 * b.m22 + a.m33 * b.m32,
   a.m31 * b.m13 + a.m32 * b.m23 + a.m33 * b.m33⟩

/-- nalgebra `Mat3::transpose`. -/
def Mat3.transpose (m : Mat3) : Mat3 :=
  ⟨m.m11, m.m21, m.m31, m.m12, m.m22, m.m32, m.m13, m.m23, m.m33⟩

/-- Determinant of a 3×3 matrix. -/
def Mat3.det (m : Mat3) : ℚ :=
  m.m11 * (m.m22 * m.m33 - m.m23 * m.m32)
    - m.m12 * (m.m21 * m.m33 - m.m23 * m.m31)
    + m.m13 * (m.m21 * m.m32 - m.m22 * m.m31)

/-- nalgebra `Mat3::identity`. -/
def Mat3.identity : Mat3 := ⟨1, 0, 0, 0, 1, 0, 0, 0, 1⟩

/-- The inverse of a nonsingular 3×3 matrix: adjugate divided by the
determinant. -/
def Mat3.invMat (m : Mat3) : Mat3 :=
  let d := m.det
  ⟨(m.m22 * m.m33 - m.m23 * m.m32) / d,
   (m.m13 * m.m32 - m.m12 * m.m33) / d,
   (m.m12 * m.m23 - m.m13 * m.m22) / d,
   (m.m23 * m.m31 - m.m21 * m.m33) / d,
   (m.m11 * m.m33 - m.m13 * m.m31) / d,
   (m.m13 * m.m21 - m.m11 * m.m23) / d,
   (m.m21 * m.m32 - m.m22 * m.m31) / d,
   (m.m12 * m.m31 - m.m11 * m.m32) / d,
   (m.m11 * m.m22 - m.m12 * m.m21) / d⟩

/-- nalgebra `Mat3::try_inverse`: `none` exactly when the matrix is singular
(zero determinant), otherwise the exact inverse. -/
def Mat3.try_inverse (m : Mat3) : Option Mat3 :=
  if m.det = 0 then none else some m.invMat

/-- nalgebra_glm `mat4_to_mat3`: the upper-left 3×3 block. -/
def mat4_to_mat3 (m : Mat4) : Mat3 :=
  ⟨m.m11, m.m12, m.m13, m.m21, m.m22, m.m23, m.m31, m.m32, m.m33⟩

/-- Rust's `as u8` cast on an `f32` value: truncate toward zero, then
saturate into `[0, 255]` (saturating float casts, Rust ≥ 1.45). After the
clamp, truncation toward zero and `⌊·⌋` agree, since every negative value
maps to `0` either way. -/
def f32_as_u8 (x : ℚ) : ℕ :=
  (max 0 (min 255 ⌊x⌋)).toNat

/-- Modelled from the spec: `Color` (`src/color.rs` is not in the repo) is an
8-bit-per-channel RGB value (spec §3). -/
structure Color where
  r : ℕ
  g : ℕ
  b : ℕ
deriving Repr, DecidableEq

/-- `Color::new(r, g, b)`. -/
def Color.new (r g b : ℕ) : Color := ⟨r, g, b⟩

/-- Modelled from the spec: scalar multiply `color * f32` is channel-wise and
"must clamp or truncate consistently" (spec §3), with §7 fixing deterministic
clamping to `[0,255]` on narrowing — which is also what Rust's saturating
`as u8` cast does on each scaled channel. `src/color.rs` is not in the repo. -/
def Color.mulScalar (c : Color) (f : ℚ) : Color :=
  ⟨f32_as_u8 ((c.r : ℚ) * f), f32_as_u8 ((c.g : ℚ) * f), f32_as_u8 ((c.b : ℚ) * f)⟩

/-- Modelled from the spec: `lerp(other, t)` is channel-wise linear
interpolation from `self` (at `t = 0`) to `other` (at `t = 1`), with the byte
channel results clamped to `[0,255]` for out-of-`[0,1]` `t` (spec §3, §8).
`src/color.rs` is not in the repo. -/
def Color.lerp (c other : Color) (t : ℚ) : Color :=
  ⟨f32_as_u8 ((c.r : ℚ) + ((other.r : ℚ) - (c.r : ℚ)) * t),
   f32_as_u8 ((c.g : ℚ) + ((other.g : ℚ) - (c.g : ℚ)) * t),
   f32_as_u8 ((c.b : ℚ) + ((other.b : ℚ) - (c.b : ℚ)) * t)⟩

/-- Modelled from the spec: `is_black()` is `r == 0 && g == 0 && b == 0`
(spec §3). `src/color.rs` is not in the repo. -/
def Color.is_black (c : Color) : Bool :=
  c.r == 0 && c.g == 0 && c.b == 0

/-- Modelled from the spec: `Vertex` (`src/vertex.rs` is not in the repo)
carries object-space attributes plus derived screen-space attributes
(spec §3). -/
structure Vertex where
  position : Vec3
  normal : Vec3
  tex_coords : Vec2
  color : Color
  transformed_position : Vec3
  transformed_normal : Vec3
deriving Repr, DecidableEq

/-- Modelled from the spec: `Fragment` (`src/fragment.rs` is not in the repo)
is the rasterizer-interpolated per-pixel sample: `vertex_position` (its `x`,
`y` consumed by the shaders), `depth`, and the lighting `intensity`
(spec §3). -/
structure Fragment where
  vertex_position : Vec2
  depth : ℚ
  intensity : ℚ
deriving Repr, DecidableEq

/-- The noise provider handle: deterministic coherent-noise functions over
2D and 3D coordinates, treated as a black box by the core (spec §1, §6). -/
structure NoiseHandle where
  get_noise_2d : ℚ → ℚ → ℚ
  get_noise_3d : ℚ → ℚ → ℚ → ℚ

/-- Modelled from the spec: `Uniforms` (defined in the repo's `main.rs`, not
in the repo) is the per-frame read-only state: four `Mat4` transforms, the
integer `time` counter (the code casts it with `as f32`), and the noise
handle (spec §3). -/
structure Uniforms where
  model_matrix : Mat4
  view_matrix : Mat4
  projection_matrix : Mat4
  viewport_matrix : Mat4
  time : ℤ
  noise : NoiseHandle

/-- The transcendental `f32` methods used by the shaders (`sin`, `cos`,
`sqrt`), modelled as opaque deterministic functions exactly like the noise
provider. -/
structure FloatOps where
  sin : ℚ → ℚ
  cos : ℚ → ℚ
  sqrt : ℚ → ℚ

/-- Rust's `%` on `f32`: remainder with the sign of the dividend,
`a - b * trunc(a / b)`. -/
def rustRem (a b : ℚ) : ℚ :=
  a - b * (if 0 ≤ a / b then (⌊a / b⌋ : ℚ) else (⌈a / b⌉ : ℚ))

/-- `vertex_shader` from `src/shaders.rs` lines 8–41: homogeneous transform by
`projection * view * model`, perspective divide by `w`, viewport mapping, and
the normal transformed by `try_inverse` of the transposed upper-left 3×3 model
block with identity fallback. -/
def vertex_shader (vertex : Vertex) (uniforms : Uniforms) : Vertex :=
  let position : Vec4 := ⟨vertex.position.x, vertex.position.y, vertex.position.z, 1⟩
  let transformed :=
    ((uniforms.projection_matrix.mulMat uniforms.view_matrix).mulMat
      uniforms.model_matrix).mulVec position
  let w := transformed.w
  let transformed_position : Vec4 :=
    ⟨transformed.x / w, transformed.y / w, transformed.z / w, 1⟩
  let screen_position := uniforms.viewport_matrix.mulVec transformed_position
  let model_mat3 := mat4_to_mat3 uniforms.model_matrix
  let normal_matrix := model_mat3.transpose.try_inverse.getD Mat3.identity
  let transformed_normal := normal_matrix.mulVec vertex.normal
  { position := vertex.position
    normal := vertex.normal
    tex_coords := vertex.tex_coords
    color := vertex.color
    transformed_position := ⟨screen_position.x, screen_position.y, screen_position.z⟩
    transformed_normal := transformed_normal }

/-- `static_pattern_shader` from `src/shaders.rs` lines 53–64. -/
def static_pattern_shader (ops : FloatOps) (fragment : Fragment) : Color :=
  let x := fragment.vertex_position.x
  let y := fragment.vertex_position.y
  let pattern := |ops.sin (x * 10) * ops.sin (y * 10)|
  let r := f32_as_u8 (pattern * 255)
  let g := f32_as_u8 ((1 - pattern) * 255)
  let b := 128
  Color.new r g b

/-- `lava_shader` from `src/shaders.rs` lines 66–104. -/
def lava_shader (ops : FloatOps) (fragment : Fragment) (uniforms : Uniforms) : Color :=
  let bright_color := Color.new 255 240 0
  let dark_color := Color.new 130 20 0
  let position : Vec3 :=
    ⟨fragment.vertex_position.x, fragment.vertex_position.y, fragment.depth⟩
  let base_frequency : ℚ := 0.2
  let pulsate_amplitude : ℚ := 0.5
  let t := (uniforms.time : ℚ) * 0.01
  let pulsate := ops.sin (t * base_frequency) * pulsate_amplitude
  let zoom : ℚ := 1000
  let noise_value1 := uniforms.noise.get_noise_3d
    (position.x * zoom) (position.y * zoom) ((position.z + pulsate) * zoom)
  let noise_value2 := uniforms.noise.get_noise_3d
    ((position.x + 1000) * zoom) ((position.y + 1000) * zoom)
    ((position.z + 1000 + pulsate) * zoom)
  let noise_value := (noise_value1 + noise_value2) * 0.5
  let color := dark_color.lerp bright_color noise_value
  color.mulScalar fragment.intensity

/-- `terrain_shader` from `src/shaders.rs` lines 107–112. -/
def terrain_shader (ops : FloatOps) (fragment : Fragment) : Color :=
  let noise :=
    |ops.sin (fragment.vertex_position.x * 5) + ops.cos (fragment.vertex_position.y * 5)|
  let color_value := f32_as_u8 (noise * 255)
  Color.new color_value (color_value / 2) (color_value / 4)

/-- `gas_shader` from `src/shaders.rs` lines 114–118. -/
def gas_shader (ops : FloatOps) (fragment : Fragment) (uniforms : Uniforms) : Color :=
  let ripple_pattern :=
    |ops.sin (fragment.vertex_position.x * 8 + (uniforms.time : ℚ) * 0.1)|
  let intensity := f32_as_u8 (ripple_pattern * 255)
  (Color.new 0 intensity 255).mulScalar fragment.intensity

/-- `cloud_shader` from `src/shaders.rs` lines 120–147. -/
def cloud_shader (fragment : Fragment) (uniforms : Uniforms) : Color :=
  let zoom : ℚ := 100
  let ox : ℚ := 100
  let oy : ℚ := 100
  let x := fragment.vertex_position.x
  let y := fragment.vertex_position.y
  let t := (uniforms.time : ℚ) * 0.5
  let noise_value := uniforms.noise.get_noise_2d (x * zoom + ox + t) (y * zoom + oy)
  let cloud_threshold : ℚ := 0.5
  let land_threshold : ℚ := 0.001
  let cloud_color := Color.new 255 255 255
  let sky_color := Color.new 30 97 145
  let land_color := Color.new 0 100 0
  let noise_color :=
    if noise_value > cloud_threshold then cloud_color
    else if noise_value > land_threshold then land_color
    else sky_color
  noise_color.mulScalar fragment.intensity

/-- The grayscale intensity computed inside `moving_circles_shader`
(`src/shaders.rs` lines 149–164): two horizontally oscillating circle centers,
binary inside-circle indicators at radius 0.1, summed and clamped by
`min 1.0`. -/
def moving_circles_intensity (ops : FloatOps) (fragment : Fragment)
    (uniforms : Uniforms) : ℚ :=
  let x := fragment.vertex_position.x
  let y := fragment.vertex_position.y
  let time := (uniforms.time : ℚ) * 0.05
  let circle1_x := rustRem (ops.sin time * 0.4 + 0.5) 1
  let circle2_x := rustRem (ops.cos time * 0.4 + 0.5) 1
  let dist1 := ops.sqrt ((x - circle1_x) ^ 2 + (y - 0.3) ^ 2)
  let dist2 := ops.sqrt ((x - circle2_x) ^ 2 + (y - 0.7) ^ 2)
  let circle_size : ℚ := 0.1
  let circle1 : ℚ := if dist1 < circle_size then 1 else 0
  let circle2 : ℚ := if dist2 < circle_size then 1 else 0
  min (circle1 + circle2) 1

/-- `moving_circles_shader` from `src/shaders.rs` lines 149–171: all three
channels are the clamped grayscale intensity times 255. -/
def moving_circles_shader (ops : FloatOps) (fragment : Fragment)
    (uniforms : Uniforms) : Color :=
  let circle_intensity := moving_circles_intensity ops fragment uniforms
  Color.new (f32_as_u8 (circle_intensity * 255)) (f32_as_u8 (circle_intensity * 255))
    (f32_as_u8 (circle_intensity * 255))

/-- `combined_shader` from `src/shaders.rs` lines 173–183. -/
def combined_shader (ops : FloatOps) (fragment : Fragment) (uniforms : Uniforms) :
    Color :=
  let base_color := static_pattern_shader ops fragment
  let circle_color := moving_circles_shader ops fragment uniforms
  if !circle_color.is_black then circle_color.mulScalar fragment.intensity
  else base_color.mulScalar fragment.intensity

/-- `fragment_shader` from `src/shaders.rs` lines 43–51: exact string match on
the material token, defaulting to `combined_shader`. -/
def fragment_shader (ops : FloatOps) (fragment : Fragment) (uniforms : Uniforms)
    (shader_type : String) : Color :=
  match shader_type with
  | "cloud" => cloud_shader fragment uniforms
  | "lava" => lava_shader ops fragment uniforms
  | "terrain" => terrain_shader ops fragment
  | "gas" => gas_shader ops fragment uniforms
  | _ => combined_shader ops fragment uniforms

/-! ### Concrete sample inputs, used by the closed witness theorems -/

/-- Float-ops sample: `sin ≡ 0`, `cos ≡ 0`, `sqrt ≡ 0`. -/
def opsZero : FloatOps := ⟨fun _ => 0, fun _ => 0, fun _ => 0⟩

/-- Float-ops sample agreeing with the real `sin`/`cos` at `0`:
`sin ≡ 0`, `cos ≡ 1`, `sqrt ≡ 0`. -/
def opsAtZero : FloatOps := ⟨fun _ => 0, fun _ => 1, fun _ => 0⟩

/-- Float-ops sample: `sin ≡ 1`, `cos ≡ 1`, `sqrt ≡ 0`. -/
def opsOnes : FloatOps := ⟨fun _ => 1, fun _ => 1, fun _ => 0⟩

/-- Noise sample returning `0` everywhere. -/
def noiseZero : NoiseHandle := ⟨fun _ _ => 0, fun _ _ _ => 0⟩

/-- Noise sample returning exactly `0.5` everywhere. -/
def noiseHalf : NoiseHandle := ⟨fun _ _ => 1/2, fun _ _ _ => 1/2⟩

/-- Noise sample returning `1` everywhere. -/
def noiseOne : NoiseHandle := ⟨fun _ _ => 1, fun _ _ _ => 1⟩

/-- Noise sample returning exactly `0.001` everywhere. -/
def noiseLand : NoiseHandle := ⟨fun _ _ => 1/1000, fun _ _ _ => 1/1000⟩

/-- The identity 4×4 matrix. -/
def mat4Id : Mat4 := ⟨1, 0, 0, 0, 0, 1, 0, 0, 0, 0, 1, 0, 0, 0, 0, 1⟩

/-- The zero 4×4 matrix (its upper-left 3×3 block is singular). -/
def mat4Zero : Mat4 := ⟨0, 0, 0, 0, 0, 0, 0, 0, 0, 0, 0, 0, 0, 0, 0, 0⟩

/-- A fragment at the origin with depth `0` and intensity `1`. -/
def fragOrigin : Fragment := ⟨⟨0, 0⟩, 0, 1⟩

/-- Uniforms with identity matrices, `time = 0`, zero noise. -/
def uniZero : Uniforms := ⟨mat4Id, mat4Id, mat4Id, mat4Id, 0, noiseZero⟩

/-- Uniforms with identity matrices, `time = 0`, noise constantly `0.5`. -/
def uniHalf : Uniforms := ⟨mat4Id, mat4Id, mat4Id, mat4Id, 0, noiseHalf⟩

/-- Uniforms with identity matrices, `time = 0`, noise constantly `1`. -/
def uniOne : Uniforms := ⟨mat4Id, mat4Id, mat4Id, mat4Id, 0, noiseOne⟩

/-- Uniforms with identity matrices, `time = 0`, noise constantly `0.001`. -/
def uniLand : Uniforms := ⟨mat4Id, mat4Id, mat4Id, mat4Id, 0, noiseLand⟩

/-- Uniforms whose model matrix is the zero matrix (singular 3×3 block). -/
def uniSingular : Uniforms := ⟨mat4Zero, mat4Id, mat4Id, mat4Id, 0, noiseZero⟩

/-- A sample vertex with distinct attribute values. -/
def vSample : Vertex := ⟨⟨1, 2, 3⟩, ⟨4, 5, 6⟩, ⟨7, 8⟩, ⟨9, 10, 11⟩, ⟨0, 0, 0⟩, ⟨0, 0, 0⟩⟩

/-! ### Helper lemmas -/

/-- Transposition preserves the determinant. -/
theorem Mat3.det_transpose (m : Mat3) : m.transpose.det = m.det := by
  simp only [Mat3.transpose, Mat3.det]
  ring

/-- On a nonsingular matrix, `try_inverse` returns a genuine two-sided
inverse. -/
theorem Mat3.try_inverse_correct (m : Mat3) (h : m.det ≠ 0) :
    ∃ inv, m.try_inverse = some inv ∧ inv.mulMat m = Mat3.identity ∧
      m.mulMat inv = Mat3.identity := by
  refine ⟨m.invMat, ?_, ?_, ?_⟩
  · simp only [Mat3.try_inverse]
    rw [if_neg h]
  · simp only [Mat3.invMat, Mat3.mulMat, Mat3.identity, Mat3.mk.injEq]
    refine ⟨?_, ?_, ?_, ?_, ?_, ?_, ?_, ?_, ?_⟩ <;>
      field_simp <;> (try simp only [Mat3.det]) <;> ring
  · simp only [Mat3.invMat, Mat3.mulMat, Mat3.identity, Mat3.mk.injEq]
    refine ⟨?_, ?_, ?_, ?_, ?_, ?_, ?_, ?_, ?_⟩ <;>
      field_simp <;> (try simp only [Mat3.det]) <;> ring

/-- On a singular matrix, `try_inverse` returns `none`. -/
theorem Mat3.try_inverse_singular (m : Mat3) (h : m.det = 0) :
    m.try_inverse = none := by
  simp [Mat3.try_inverse, h]

/-- The identity matrix acts trivially on vectors. -/
theorem Mat3.identity_mulVec (v : Vec3) : Mat3.identity.mulVec v = v := by
  simp only [Mat3.identity, Mat3.mulVec]
  cases v
  norm_num

/-- The byte cast never exceeds 255. -/
theorem f32_as_u8_le (x : ℚ) : f32_as_u8 x ≤ 255 := by
  unfold f32_as_u8
  omega

/-- The byte cast saturates above at 255. -/
theorem f32_as_u8_of_gt (x : ℚ) (h : 255 < x) : f32_as_u8 x = 255 := by
  unfold f32_as_u8
  have : (255 : ℤ) ≤ ⌊x⌋ := by
    rw [Int.le_floor]
    push_cast
    linarith
  omega

/-- The byte cast saturates below at 0. -/
theorem f32_as_u8_of_neg (x : ℚ) (h : x < 0) : f32_as_u8 x = 0 := by
  unfold f32_as_u8
  have : ⌊x⌋ < 0 := by
    rw [Int.floor_lt]
    push_cast
    linarith
  omega

/-! ### Claim theorems -/

/-- C2: whenever a shader computes a float channel value outside `[0,255]`
before narrowing it to a byte (e.g. the terrain shader's `noise * 255`, whose
noise `|sin(x*5) + cos(y*5)|` can exceed 1, or a negative value), the byte
result is deterministically clamped to `[0,255]` rather than wrapping: the
narrowing `f32_as_u8` is bounded by 255, saturates above at 255 and below
at 0, and the terrain shader's red channel is exactly this narrowing of
`noise * 255`, hence 255 whenever `noise * 255` overflows. -/
theorem byte_narrowing_clamped (x : ℚ) (ops : FloatOps) (f : Fragment) :
    f32_as_u8 x ≤ 255 ∧
    (255 < x → f32_as_u8 x = 255) ∧
    (x < 0 → f32_as_u8 x = 0) ∧
    (terrain_shader ops f).r =
      f32_as_u8
        (|ops.sin (f.vertex_position.x * 5) + ops.cos (f.vertex_position.y * 5)| * 255) ∧
    (255 < |ops.sin (f.vertex_position.x * 5) + ops.cos (f.vertex_position.y * 5)| * 255 →
      (terrain_shader ops f).r = 255) := by
  refine ⟨f32_as_u8_le x, f32_as_u8_of_gt x, f32_as_u8_of_neg x, rfl, ?_⟩
  intro h
  exact f32_as_u8_of_gt _ h

/-- C2 witness: the clamp evaluated at concrete overflowing inputs — `360`
clamps to `255`, `-5` clamps to `0`, and with `sin ≡ 1`, `cos ≡ 1` the terrain
noise is `2`, so `noise * 255 = 510` narrows to `255`. -/
theorem byte_narrowing_clamped_witness :
    f32_as_u8 360 = 255 ∧ f32_as_u8 (-5) = 0 ∧
    (terrain_shader opsOnes fragOrigin).r = 255 :=
  ⟨(byte_narrowing_clamped 360 opsOnes fragOrigin).2.1 (by norm_num),
   (byte_narrowing_clamped (-5) opsOnes fragOrigin).2.2.1 (by norm_num),
   (byte_narrowing_clamped 0 opsOnes fragOrigin).2.2.2.2
     (by norm_num [opsOnes, fragOrigin])⟩

/-- C3: the fragment dispatcher matches the material token exactly and
case-sensitively — `"cloud"`, `"lava"`, `"terrain"`, `"gas"` each route to
their distinct named shader, and every other string routes to the combined
default shader; being a total function, it returns a color for every token. -/
theorem fragment_shader_dispatch (ops : FloatOps) (f : Fragment) (u : Uniforms) :
    fragment_shader ops f u "cloud" = cloud_shader f u ∧
    fragment_shader ops f u "lava" = lava_shader ops f u ∧
    fragment_shader ops f u "terrain" = terrain_shader ops f ∧
    fragment_shader ops f u "gas" = gas_shader ops f u ∧
    ∀ s : String, s ≠ "cloud" → s ≠ "lava" → s ≠ "terrain" → s ≠ "gas" →
      fragment_shader ops f u s = combined_shader ops f u := by
  refine ⟨rfl, rfl, rfl, rfl, ?_⟩
  intro s h1 h2 h3 h4
  unfold fragment_shader
  split <;> simp_all

/-- C3 witness: the default routing evaluated at the concrete unknown tokens
`"unknown"`, `""` and `"LAVA"` (case matters). -/
theorem fragment_shader_dispatch_witness :
    fragment_shader opsZero fragOrigin uniZero "unknown" =
      combined_shader opsZero fragOrigin uniZero ∧
    fragment_shader opsZero fragOrigin uniZero "" =
      combined_shader opsZero fragOrigin uniZero ∧
    fragment_shader opsZero fragOrigin uniZero "LAVA" =
      combined_shader opsZero fragOrigin uniZero :=
  ⟨(fragment_shader_dispatch opsZero fragOrigin uniZero).2.2.2.2 "unknown"
     (by decide) (by decide) (by decide) (by decide),
   (fragment_shader_dispatch opsZero fragOrigin uniZero).2.2.2.2 ""
     (by decide) (by decide) (by decide) (by decide),
   (fragment_shader_dispatch opsZero fragOrigin uniZero).2.2.2.2 "LAVA"
     (by decide) (by decide) (by decide) (by decide)⟩

/-- C5: the vertex transform passes `position`, `normal`, `tex_coords` and
`color` through unchanged; only the derived fields differ, and the input
vertex (a value in this embedding, as in Rust, where it is taken by shared
reference) is not mutated. -/
theorem vertex_shader_passthrough (v : Vertex) (u : Uniforms) :
    (vertex_shader v u).position = v.position ∧
    (vertex_shader v u).normal = v.normal ∧
    (vertex_shader v u).tex_coords = v.tex_coords ∧
    (vertex_shader v u).color = v.color :=
  ⟨rfl, rfl, rfl, rfl⟩

/-- C7: the lava shader is exactly `dark(130,20,0)` lerped toward
`bright(255,240,0)` by the average of two 3D noise samples, multiplied by
`fragment.intensity`, with `pulsate = sin(time*0.01*0.2) * 0.5`, the first
sample at `(x*1000, y*1000, (depth+pulsate)*1000)` and the second at
`((x+1000)*1000, (y+1000)*1000, (depth+1000+pulsate)*1000)`. -/
theorem lava_shader_formula (ops : FloatOps) (f : Fragment) (u : Uniforms) :
    lava_shader ops f u =
      ((Color.new 130 20 0).lerp (Color.new 255 240 0)
        ((u.noise.get_noise_3d (f.vertex_position.x * 1000)
            (f.vertex_position.y * 1000)
            ((f.depth + ops.sin ((u.time : ℚ) * 0.01 * 0.2) * 0.5) * 1000) +
          u.noise.get_noise_3d ((f.vertex_position.x + 1000) * 1000)
            ((f.vertex_position.y + 1000) * 1000)
            ((f.depth + 1000 + ops.sin ((u.time : ℚ) * 0.01 * 0.2) * 0.5) * 1000)) *
          0.5)).mulScalar f.intensity := rfl

/-- C9: the vertex transform and the fragment dispatcher are total — for every
vertex, fragment, uniforms (including a singular model block or a homogeneous
`w` of 0, whose division is still a value here) and material token they return
a value; the dispatcher always resolves to one of the five shaders and the
normal-matrix fallback is a value-level `getD` substitution. -/
theorem shading_total (ops : FloatOps) (v : Vertex) (f : Fragment) (u : Uniforms)
    (s : String) :
    (∃ out : Vertex, vertex_shader v u = out) ∧
    (∃ nm : Mat3,
      ((mat4_to_mat3 u.model_matrix).transpose.try_inverse.getD Mat3.identity) = nm) ∧
    (fragment_shader ops f u s = cloud_shader f u ∨
     fragment_shader ops f u s = lava_shader ops f u ∨
     fragment_shader ops f u s = terrain_shader ops f ∨
     fragment_shader ops f u s = gas_shader ops f u ∨
     fragment_shader ops f u s = combined_shader ops f u) := by
  refine ⟨⟨_, rfl⟩, ⟨_, rfl⟩, ?_⟩
  unfold fragment_shader
  split
  · exact Or.inl rfl
  · exact Or.inr (Or.inl rfl)
  · exact Or.inr (Or.inr (Or.inl rfl))
  · exact Or.inr (Or.inr (Or.inr (Or.inl rfl)))
  · exact Or.inr (Or.inr (Or.inr (Or.inr rfl)))

/-- C1 counterexample: with noise constantly `0.5`, a sampled noise value
exactly equal to `0.5` does NOT classify as cloud — the strict `> 0.5` test
fails and the `> 0.001` land branch fires, so the cloud shader returns the
dark-green land color, not white. -/
theorem cloud_half_counterexample :
    uniHalf.noise.get_noise_2d
        (fragOrigin.vertex_position.x * 100 + 100 + (uniHalf.time : ℚ) * 0.5)
        (fragOrigin.vertex_position.y * 100 + 100) = 0.5 ∧
    cloud_shader fragOrigin uniHalf = Color.new 0 100 0 ∧
    cloud_shader fragOrigin uniHalf ≠
      (Color.new 255 255 255).mulScalar fragOrigin.intensity := by
  have h2 : cloud_shader fragOrigin uniHalf = Color.new 0 100 0 := by
    simp only [cloud_shader, uniHalf, noiseHalf, fragOrigin]
    norm_num [Color.mulScalar, Color.new, f32_as_u8]
    omega
  refine ⟨by norm_num [uniHalf, noiseHalf], h2, ?_⟩
  rw [h2]
  simp only [Color.mulScalar, Color.new, fragOrigin]
  norm_num [f32_as_u8]
  omega

/-- C1 (amended): in the cloud shader, a sampled noise value exactly equal to
`0.5` classifies the fragment as land (dark green), not cloud — both
thresholds are strict — while a value exactly `0.001` classifies as sky;
in general values `> 0.5` give white cloud, values `> 0.001` give dark-green
land, and all others give sky blue, with the chosen color then multiplied by
`fragment.intensity`. -/
theorem cloud_shader_classification (f : Fragment) (u : Uniforms) :
    (u.noise.get_noise_2d (f.vertex_position.x * 100 + 100 + (u.time : ℚ) * 0.5)
        (f.vertex_position.y * 100 + 100) > 0.5 →
      cloud_shader f u = (Color.new 255 255 255).mulScalar f.intensity) ∧
    (u.noise.get_noise_2d (f.vertex_position.x * 100 + 100 + (u.time : ℚ) * 0.5)
        (f.vertex_position.y * 100 + 100) ≤ 0.5 →
      u.noise.get_noise_2d (f.vertex_position.x * 100 + 100 + (u.time : ℚ) * 0.5)
        (f.vertex_position.y * 100 + 100) > 0.001 →
      cloud_shader f u = (Color.new 0 100 0).mulScalar f.intensity) ∧
    (u.noise.get_noise_2d (f.vertex_position.x * 100 + 100 + (u.time : ℚ) * 0.5)
        (f.vertex_position.y * 100 + 100) ≤ 0.001 →
      cloud_shader f u = (Color.new 30 97 145).mulScalar f.intensity) := by
  simp only [cloud_shader]
  split_ifs with h1 h2
  · exact ⟨fun _ => rfl,
      fun hle _ => absurd h1 (not_lt.mpr hle),
      fun hle => absurd h1 (not_lt.mpr (hle.trans (by norm_num)))⟩
  · exact ⟨fun hgt => absurd hgt h1,
      fun _ _ => rfl,
      fun hle => absurd h2 (not_lt.mpr hle)⟩
  · exact ⟨fun hgt => absurd hgt h1,
      fun _ hgt => absurd hgt h2,
      fun _ => rfl⟩

/-- C1 witness: the amended classification evaluated concretely — noise
constantly `1` yields the white cloud branch, noise constantly `0.001` yields
the sky branch. -/
theorem cloud_shader_classification_witness :
    cloud_shader fragOrigin uniOne =
      (Color.new 255 255 255).mulScalar fragOrigin.intensity ∧
    cloud_shader fragOrigin uniLand =
      (Color.new 30 97 145).mulScalar fragOrigin.intensity :=
  ⟨(cloud_shader_classification fragOrigin uniOne).1
     (by norm_num [uniOne, noiseOne]),
   (cloud_shader_classification fragOrigin uniLand).2.2
     (by norm_num [uniLand, noiseLand])⟩

/-- C4: if the model matrix's upper-left 3×3 block is singular, the vertex
transform substitutes the identity normal matrix, so the output normal equals
the input normal; if the block is invertible, the normal is transformed by the
inverse of the transposed block (the inverse-transpose), certified as a
two-sided inverse. -/
theorem vertex_shader_normal_matrix (v : Vertex) (u : Uniforms) :
    ((mat4_to_mat3 u.model_matrix).det = 0 →
      (vertex_shader v u).transformed_normal = v.normal) ∧
    ((mat4_to_mat3 u.model_matrix).det ≠ 0 →
      ∃ inv, (mat4_to_mat3 u.model_matrix).transpose.try_inverse = some inv ∧
        inv.mulMat (mat4_to_mat3 u.model_matrix).transpose = Mat3.identity ∧
        (mat4_to_mat3 u.model_matrix).transpose.mulMat inv = Mat3.identity ∧
        (vertex_shader v u).transformed_normal = inv.mulVec v.normal) := by
  constructor
  · intro h
    have h' : (mat4_to_mat3 u.model_matrix).transpose.det = 0 := by
      rw [Mat3.det_transpose]
      exact h
    simp only [vertex_shader]
    rw [Mat3.try_inverse_singular _ h']
    simp [Mat3.identity_mulVec]
  · intro h
    have h' : (mat4_to_mat3 u.model_matrix).transpose.det ≠ 0 := by
      rw [Mat3.det_transpose]
      exact h
    obtain ⟨inv, hsome, hleft, hright⟩ := Mat3.try_inverse_correct _ h'
    refine ⟨inv, hsome, hleft, hright, ?_⟩
    simp only [vertex_shader]
    rw [hsome]
    rfl

/-- C4 witness: with the zero model matrix (singular block) the transformed
normal equals the input normal, and with the identity model matrix
(invertible block) the certified inverse exists. -/
theorem vertex_shader_normal_matrix_witness :
    (vertex_shader vSample uniSingular).transformed_normal = vSample.normal ∧
    ∃ inv, (mat4_to_mat3 uniZero.model_matrix).transpose.try_inverse = some inv ∧
      inv.mulMat (mat4_to_mat3 uniZero.model_matrix).transpose = Mat3.identity ∧
      (mat4_to_mat3 uniZero.model_matrix).transpose.mulMat inv = Mat3.identity ∧
      (vertex_shader vSample uniZero).transformed_normal = inv.mulVec vSample.normal :=
  ⟨(vertex_shader_normal_matrix vSample uniSingular).1
     (by norm_num [uniSingular, mat4Zero, mat4_to_mat3, Mat3.det]),
   (vertex_shader_normal_matrix vSample uniZero).2
     (by norm_num [uniZero, mat4Id, mat4_to_mat3, Mat3.det])⟩

/-- C6: for a fragment at `(0,0)` with intensity `1` at time `0` (with `sin`,
`cos` agreeing with the real functions at `0`), the terrain shader returns
`Color(255,127,63)` — noise `|sin 0 + cos 0| = 1`, byte value `255`, channels
`255`, `255/2 = 127`, `255/4 = 63` by integer division — and the gas shader
returns `Color(0,0,255)` — ripple `|sin 0| = 0`. -/
theorem terrain_gas_at_origin (ops : FloatOps) (f : Fragment) (u : Uniforms)
    (hsin : ops.sin 0 = 0) (hcos : ops.cos 0 = 1)
    (hx : f.vertex_position.x = 0) (hy : f.vertex_position.y = 0)
    (hint : f.intensity = 1) (ht : u.time = 0) :
    terrain_shader ops f = Color.new 255 127 63 ∧
    gas_shader ops f u = Color.new 0 0 255 := by
  constructor
  · simp only [terrain_shader, hx, hy, zero_mul, hsin, hcos]
    norm_num [f32_as_u8, Color.new]
    omega
  · simp only [gas_shader, hx, ht, zero_mul, Int.cast_zero, zero_add, hsin, hint]
    norm_num [f32_as_u8, Color.new, Color.mulScalar]
    omega

/-- C6 witness: the end-to-end example evaluated with the concrete sample
operations `sin ≡ 0`, `cos ≡ 1` at the origin fragment and time `0`. -/
theorem terrain_gas_at_origin_witness :
    terrain_shader opsAtZero fragOrigin = Color.new 255 127 63 ∧
    gas_shader opsAtZero fragOrigin uniZero = Color.new 0 0 255 :=
  terrain_gas_at_origin opsAtZero fragOrigin uniZero rfl rfl rfl rfl rfl rfl

/-- C8: in the moving-circles sub-shader, a point is inside a circle iff its
distance to the center (the square root of the sum of squared coordinate
differences) is strictly below `0.1`; the grayscale intensity is
`min(1, indicator1 + indicator2)`, so a point inside both circles yields
intensity exactly `1` (not `2`), and all three output channels are
`intensity * 255`. -/
theorem moving_circles_clamp (ops : FloatOps) (f : Fragment) (u : Uniforms) :
    moving_circles_intensity ops f u =
      min ((if ops.sqrt ((f.vertex_position.x -
              rustRem (ops.sin ((u.time : ℚ) * 0.05) * 0.4 + 0.5) 1) ^ 2 +
              (f.vertex_position.y - 0.3) ^ 2) < 0.1 then (1 : ℚ) else 0) +
           (if ops.sqrt ((f.vertex_position.x -
              rustRem (ops.cos ((u.time : ℚ) * 0.05) * 0.4 + 0.5) 1) ^ 2 +
              (f.vertex_position.y - 0.7) ^ 2) < 0.1 then (1 : ℚ) else 0)) 1 ∧
    (ops.sqrt ((f.vertex_position.x -
        rustRem (ops.sin ((u.time : ℚ) * 0.05) * 0.4 + 0.5) 1) ^ 2 +
        (f.vertex_position.y - 0.3) ^ 2) < 0.1 →
      ops.sqrt ((f.vertex_position.x -
        rustRem (ops.cos ((u.time : ℚ) * 0.05) * 0.4 + 0.5) 1) ^ 2 +
        (f.vertex_position.y - 0.7) ^ 2) < 0.1 →
      moving_circles_intensity ops f u = 1) ∧
    moving_circles_shader ops f u =
      Color.new (f32_as_u8 (moving_circles_intensity ops f u * 255))
        (f32_as_u8 (moving_circles_intensity ops f u * 255))
        (f32_as_u8 (moving_circles_intensity ops f u * 255)) := by
  refine ⟨rfl, ?_, rfl⟩
  intro h1 h2
  simp only [moving_circles_intensity]
  rw [if_pos h1, if_pos h2]
  norm_num

/-- C8 witness: with `sqrt ≡ 0` every point is inside both circles, and the
clamped intensity is exactly `1`. -/
theorem moving_circles_clamp_witness :
    moving_circles_intensity opsZero fragOrigin uniZero = 1 :=
  (moving_circles_clamp opsZero fragOrigin uniZero).2.1
    (by norm_num [opsZero]) (by norm_num [opsZero])

/-- C10: the static pattern sub-shader's blue channel is the constant `128`,
so its output is never black; hence the combined shader's `is_black` test is
decided solely by the moving-circles layer, and the combined shader returns
the circle color times intensity exactly when the fragment is inside one of
the circles, and the static pattern times intensity otherwise. -/
theorem combined_shader_layering (ops : FloatOps) (f : Fragment) (u : Uniforms) :
    (static_pattern_shader ops f).b = 128 ∧
    (static_pattern_shader ops f).is_black = false ∧
    combined_shader ops f u =
      (if ops.sqrt ((f.vertex_position.x -
            rustRem (ops.sin ((u.time : ℚ) * 0.05) * 0.4 + 0.5) 1) ^ 2 +
            (f.vertex_position.y - 0.3) ^ 2) < 0.1 ∨
          ops.sqrt ((f.vertex_position.x -
            rustRem (ops.cos ((u.time : ℚ) * 0.05) * 0.4 + 0.5) 1) ^ 2 +
            (f.vertex_position.y - 0.7) ^ 2) < 0.1 then
        (moving_circles_shader ops f u).mulScalar f.intensity
      else (static_pattern_shader ops f).mulScalar f.intensity) := by
  refine ⟨rfl, ?_, ?_⟩
  · simp [static_pattern_shader, Color.is_black, Color.new]
  · by_cases h1 : ops.sqrt ((f.vertex_position.x -
        rustRem (ops.sin ((u.time : ℚ) * 0.05) * 0.4 + 0.5) 1) ^ 2 +
        (f.vertex_position.y - 0.3) ^ 2) < 0.1 <;>
    by_cases h2 : ops.sqrt ((f.vertex_position.x -
        rustRem (ops.cos ((u.time : ℚ) * 0.05) * 0.4 + 0.5) 1) ^ 2 +
        (f.vertex_position.y - 0.7) ^ 2) < 0.1 <;>
    simp only [combined_shader, moving_circles_shader, moving_circles_intensity,
      h1, h2, if_true, if_false, or_true, true_or, or_self] <;>
    norm_num [Color.is_black, Color.new, f32_as_u8]
